import Mathlib

/-!
Verification development for the multilayered data-processing repository
(`src/dataprocessor/one_strategy_per_layer_type.py` and
`src/dataprocessor/configuration_based_strategy.py`).

The document model is the JSON value shape produced by `json.loads`: a tree
of dicts whose values are scalars, nested dicts ("layers") or arrays.  The
source passes raw dicts around while also reading `.field_name` / `.data`
attributes from them; we model the intended wrapper: a layer is the field
name under which its dict sits plus the dict's entries, in document order.
-/

namespace MDP

/-- A decoded JSON value (`json.loads` output): scalar, object or array. -/
inductive Value where
  | str (s : String)
  | num (n : Int)
  | bool (b : Bool)
  | null
  | dict (fields : List (String × Value))
  | arr (items : List Value)
deriving Repr

/-! Decidable equality for `Value` (the nested inductive defeats the
deriving handler, so it is spelled out: a Boolean comparison and the proof
that it decides equality). -/

mutual

/-- Structural equality test on values. -/
def Value.beq : Value → Value → Bool
  | .str a, .str b => a == b
  | .num a, .num b => a == b
  | .bool a, .bool b => a == b
  | .null, .null => true
  | .dict a, .dict b => Value.beqFields a b
  | .arr a, .arr b => Value.beqValues a b
  | _, _ => false

/-- Structural equality test on dict entry lists. -/
def Value.beqFields : List (String × Value) → List (String × Value) → Bool
  | [], [] => true
  | (f, v) :: r1, (g, w) :: r2 => f == g && Value.beq v w && Value.beqFields r1 r2
  | _, _ => false

/-- Structural equality test on value lists. -/
def Value.beqValues : List Value → List Value → Bool
  | [], [] => true
  | v :: r1, w :: r2 => Value.beq v w && Value.beqValues r1 r2
  | _, _ => false

end

theorem Value.beq_iff (a b : Value) : Value.beq a b = true ↔ a = b := by
  induction a, b using Value.beq.induct
      (motive_2 := fun a b => Value.beqValues a b = true ↔ a = b)
      (motive_3 := fun a b => Value.beqFields a b = true ↔ a = b)
  case case7 t x h1 h2 h3 h4 h5 h6 =>
    cases t <;> cases x <;>
      first
        | exact (h1 _ _ rfl rfl).elim
        | exact (h2 _ _ rfl rfl).elim
        | exact (h3 _ _ rfl rfl).elim
        | exact (h4 rfl rfl).elim
        | exact (h5 _ _ rfl rfl).elim
        | exact (h6 _ _ rfl rfl).elim
        | simp [Value.beq]
  case case10 t x h1 h2 =>
    cases t with
    | nil =>
      cases x with
      | nil => exact (h1 rfl rfl).elim
      | cons q r2 => simp [Value.beqFields]
    | cons p r1 =>
      cases x with
      | nil => simp [Value.beqFields]
      | cons q r2 => exact (h2 p.1 p.2 r1 q.1 q.2 r2 rfl rfl).elim
  case case13 t x h1 h2 =>
    cases t with
    | nil =>
      cases x with
      | nil => exact (h1 rfl rfl).elim
      | cons w r2 => simp [Value.beqValues]
    | cons v r1 =>
      cases x with
      | nil => simp [Value.beqValues]
      | cons w r2 => exact (h2 v r1 w r2 rfl rfl).elim
  all_goals simp_all [Value.beq, Value.beqValues, Value.beqFields]

instance : DecidableEq Value := fun a b =>
  decidable_of_iff (Value.beq a b = true) (Value.beq_iff a b)

/-- A layer as the processors consume it: `field_name` is the key under
which the dict sits (the root's name comes from the driver), `data` the
dict's entries in document order. -/
structure LayerData where
  field_name : String
  data : List (String × Value)
deriving Repr, DecidableEq

/-- Python's `key in data` membership test on a dict, on the key set. -/
def hasKey (data : List (String × Value)) (key : String) : Bool :=
  data.any (fun fv => fv.1 == key)

/-! ### Strategy classes of `one_strategy_per_layer_type.py`

`BaseAddressStrategy.__init__` takes `stop_on_failure=True,
is_independent_of_children=False` as defaults; `StreetAddressStrategy`
overrides them with `super().__init__(stop_on_failure=False,
is_independent_of_children=True)`; `AvenueAddressStrategy` and
`DefaultAddressStrategy` keep the defaults.  The resolver hands back the
class itself; we model a resolved class by the flag values its instances
carry (this is how `AddressProcessor` uses a resolved class: it
instantiates it with `self.strategy(self._data)`). -/

/-- The three concrete address strategy classes. -/
inductive AddressStrategyClass where
  | StreetAddressStrategy
  | AvenueAddressStrategy
  | DefaultAddressStrategy
deriving Repr, DecidableEq

/-- `stop_on_failure` flag of an instance of each strategy class. -/
def AddressStrategyClass.stop_on_failure : AddressStrategyClass → Bool
  | .StreetAddressStrategy => false
  | .AvenueAddressStrategy => true
  | .DefaultAddressStrategy => true

/-- `is_independent_of_children` flag of an instance of each strategy class. -/
def AddressStrategyClass.is_independent_of_children : AddressStrategyClass → Bool
  | .StreetAddressStrategy => true
  | .AvenueAddressStrategy => false
  | .DefaultAddressStrategy => false

/-- Exceptions the modelled code can raise. -/
inductive PyExc where
  | InvalidInputException
  | AttributeError
  | TypeError
  | SystemExit (code : Int)
deriving Repr, DecidableEq

/-- `validate` of each strategy class.  Every body is `pass` (the street and
avenue variants call `super().validate()`, itself `pass`, and then contain
only comments): no strategy ever raises `InvalidInputException`. -/
def AddressStrategyClass.validate : AddressStrategyClass → Except PyExc Unit
  | .StreetAddressStrategy => .ok ()
  | .AvenueAddressStrategy => .ok ()
  | .DefaultAddressStrategy => .ok ()

/-- `StrategyResolver.get_strategy` (`one_strategy_per_layer_type.py`,
lines 132-141).  The source's outer `if field_name == 'address'` has no
`else` branch, so any other field name falls off the end of the function
and Python returns `None`; hence the `Option`. -/
def StrategyResolver.get_strategy (field_name : String)
    (data : List (String × Value)) : Option AddressStrategyClass :=
  if field_name == "address" then
    if hasKey data "street" then some .StreetAddressStrategy
    else if hasKey data "avenue" then some .AvenueAddressStrategy
    else some .DefaultAddressStrategy
  else none

/-! ### Factories of `configuration_based_strategy.py` -/

/-- The two transformer classes. -/
inductive TransformerClass where
  | RuleBasedTransformer
  | ReflectiveTransformer
deriving Repr, DecidableEq

/-- `validate` of both transformer classes: each body is `pass`. -/
def TransformerClass.validate : TransformerClass → Except PyExc Unit
  | .RuleBasedTransformer => .ok ()
  | .ReflectiveTransformer => .ok ()

/-- The three notifier classes. -/
inductive NotifierClass where
  | NullNotifier
  | EmailNotifier
  | MessageQueueNotifier
deriving Repr, DecidableEq

/-- The three storage classes. -/
inductive StorageClass where
  | StoreToS3
  | StoreToFile
  | StoreToDB
deriving Repr, DecidableEq

/-- `TransformerFactory.get_transformer` (lines 148-154): membership test of
`data.field_name` in the tuple `('address', 'transaction')`, with an `else`
returning `ReflectiveTransformer`. -/
def TransformerFactory.get_transformer (data : LayerData) : TransformerClass :=
  if data.field_name == "address" || data.field_name == "transaction" then
    .RuleBasedTransformer
  else
    .ReflectiveTransformer

/-- `NotifierFactory.get_notifier` (lines 157-165). -/
def NotifierFactory.get_notifier (data : LayerData) : NotifierClass :=
  if data.field_name == "address" then .EmailNotifier
  else if data.field_name == "location" || data.field_name == "transaction" then
    .MessageQueueNotifier
  else .NullNotifier

/-- `StorageFactory.get_storage` (lines 168-176). -/
def StorageFactory.get_storage (data : LayerData) : StorageClass :=
  if data.field_name == "address" then .StoreToS3
  else if data.field_name == "location" || data.field_name == "transaction" then
    .StoreToDB
  else .StoreToFile

/-- The attribute values a `ConcreteStrategy` instance holds after
`__init__` (configuration design, lines 179-190). -/
structure ConcreteStrategy where
  is_independent_of_children : Bool
  stop_on_failure : Bool
  transformer : TransformerClass
  storage_handler : StorageClass
  notifier_obj : NotifierClass
deriving Repr, DecidableEq

/-- `ConcreteStrategy.__init__`: `ConcreteProcessor` always constructs it as
`ConcreteStrategy(layer_data)`, so the defaults `stop_on_failure=True`,
`is_independent_of_children=False` always apply; the three components come
from the factories. -/
def ConcreteStrategy.init (data : LayerData) : ConcreteStrategy :=
  { is_independent_of_children := false
    stop_on_failure := true
    transformer := TransformerFactory.get_transformer data
    storage_handler := StorageFactory.get_storage data
    notifier_obj := NotifierFactory.get_notifier data }

/-! ### The recursive engine: `ConcreteProcessor._process`

The method body is line-for-line the same in both designs
(`one_strategy_per_layer_type.py` 150-171, `configuration_based_strategy.py`
209-230): collect the dict-valued fields of `self._data` into
`layer_nodes`, then for each one construct a child `ConcreteProcessor`
(which resolves the child's strategy), consult
`strategy_obj.is_independent_of_children` (the `if` branch's body is a bare
`pass`: nothing is ever dispatched asynchronously), call the child's
`process_data`, and catch `InvalidInputException` by consulting the
child's `stop_on_failure`: if true, `notify()` and `exit(-1)`; if false,
fall through to the next node.

Modelling notes, checked against the source:
* Collecting `layer_nodes` first and then looping is fused into one pass
  over the fields; the nodes and their order are identical.
* The child layer is passed as the raw dict; its field name (which
  `StrategyResolver.get_strategy` consumes) is the key the dict sat under.
* The flags are read off the resolved strategy class's instances (the
  usage `self.strategy(self._data)` in `AddressProcessor` shows how a
  resolved class is meant to be used).  When `get_strategy` returned
  `None`, however, there is nothing to read flags from, and the check
  `processor_obj.strategy_obj.is_independent_of_children` raises
  `AttributeError` — which `except InvalidInputException` does not catch,
  so it escapes the whole run.
* The `stop_on_failure` handler calls `processor_obj.notify()` — an
  attribute `AbstractProcessor` does not define (`_notify` exists) — and
  then `exit(-1)`, which raises `SystemExit`; the branch is modelled as
  the exit the source spells out.  (It is provably unreachable: no
  validator ever raises `InvalidInputException`.)
* Each execution of `process_data` on a layer is recorded as a `visited`
  effect carrying the processor's `_trace_id`; the body of `_process`
  contains no call to any validate/transform/store/notify operation, so
  no other effect is ever emitted. -/

/-- Observable effects of a run.  The validated/transformed/stored/notified
effects are the operations the spec's engine would perform per layer; the
model emits one wherever the source calls one (the source calls none). -/
inductive Effect where
  | visited (trace_id : Nat) (l : LayerData)
  | validated (l : LayerData)
  | transformed (l : LayerData)
  | stored (l : LayerData)
  | notified (l : LayerData)
  | exitCalled (code : Int)
deriving Repr, DecidableEq

/-- The `layer_nodes` collection loop (`for field, value in
self._data.items(): if type(value) is dict: ...`), paired with the key the
dict sat under. -/
def childLayers (data : List (String × Value)) : List LayerData :=
  data.filterMap fun fv =>
    match fv.2 with
    | Value.dict d => some ⟨fv.1, d⟩
    | _ => none

/-- Result of running `process_data` on a layer: the effects emitted in
order, and the exception escaping the call, if any. -/
abbrev RunOut := List Effect × Option PyExc

/-- The `for layer_node in layer_nodes` loop of `_process`, fused with the
collection loop (same nodes, same order).  Recursion into a child's
`process_data` is inlined: the child emits its own `visited` effect and
then runs its `_process` on its fields. -/
def processNodes (trace_id : Nat) : List (String × Value) → RunOut
  | [] => ([], none)
  | (f, Value.dict d) :: rest =>
    match StrategyResolver.get_strategy f d with
    | none =>
      -- strategy_obj is None: reading `.is_independent_of_children` raises
      -- AttributeError, which the `except InvalidInputException` clause
      -- does not catch.
      ([], some PyExc.AttributeError)
    | some strat =>
      -- `if processor_obj.strategy_obj.is_independent_of_children: pass`
      -- has no effect; the child is always processed synchronously next.
      let child := processNodes trace_id d
      let childEffs := Effect.visited trace_id ⟨f, d⟩ :: child.1
      match child.2 with
      | none =>
        let r := processNodes trace_id rest
        (childEffs ++ r.1, r.2)
      | some PyExc.InvalidInputException =>
        if strat.stop_on_failure then
          (childEffs ++ [Effect.exitCalled (-1)], some (PyExc.SystemExit (-1)))
        else
          let r := processNodes trace_id rest
          (childEffs ++ r.1, r.2)
      | some e => (childEffs, some e)
  | (_, _) :: rest => processNodes trace_id rest

/-- `process_data` on a layer: runs `_process` (modelled by `processNodes`
on the layer's fields); the layer's own visit is recorded first. -/
def process_data (trace_id : Nat) (l : LayerData) : RunOut :=
  let r := processNodes trace_id l.data
  (Effect.visited trace_id l :: r.1, r.2)

/-- All layers of the tree below a field list, in the depth-first document
order the engine would traverse them: each dict-valued field followed by
its own subtree. -/
def nodeList : List (String × Value) → List LayerData
  | [] => []
  | (f, Value.dict d) :: rest => ⟨f, d⟩ :: (nodeList d ++ nodeList rest)
  | (_, _) :: rest => nodeList rest

/-- The layers of the full subtree rooted at a layer: the layer itself and
every nested dict below it. -/
def subtreeLayers (l : LayerData) : List LayerData :=
  l :: nodeList l.data

/-! ### Abstract-class instantiation (`abc` semantics)

`AbstractProcessor` declares `_process` and `_undo_process` with
`@abstractmethod`.  `ConcreteProcessor` (both designs) defines only
`__init__` and `_process`.  Python's `ABCMeta` refuses to instantiate a
class whose set of unimplemented abstract methods is nonempty, raising
`TypeError` before `__init__` runs. -/

namespace AbstractProcessor

/-- The methods `AbstractProcessor` declares with `@abstractmethod`. -/
def abstractmethods : List String := ["_process", "_undo_process"]

end AbstractProcessor

namespace ConcreteProcessor

/-- The methods `ConcreteProcessor` itself defines, in both designs. -/
def methods : List String := ["__init__", "_process"]

/-- Abstract methods that remain unimplemented on `ConcreteProcessor`. -/
def unimplemented : List String :=
  AbstractProcessor.abstractmethods.filter (fun m => !(methods.contains m))

/-- Python `ABCMeta` instantiation: succeeds only when no abstract method
remains unimplemented; otherwise raises `TypeError` before `__init__`. -/
def instantiate : Except PyExc Unit :=
  if unimplemented.isEmpty then .ok () else .error PyExc.TypeError

end ConcreteProcessor

namespace Driver

/-- `Driver.main` (both designs): after decoding (external) it draws the
trace id once (`uuid4()`, modelled as the `fresh_uuid` argument), builds
the root `ConcreteProcessor` — which under `ABCMeta` semantics raises —
and only then would call `process_data`. -/
def main (fresh_uuid : Nat) (layer_data : LayerData) : Except PyExc RunOut :=
  match ConcreteProcessor.instantiate with
  | .error e => .error e
  | .ok _ => .ok (process_data fresh_uuid layer_data)

end Driver


/-- Master shape lemma: a run of the loop emits only `visited` effects
carrying the loop's own trace id, and the only exception that can escape
is the `AttributeError` from an unresolvable strategy. -/
theorem processNodes_only_visits (trace_id : Nat) (fs : List (String × Value)) :
    (∀ e ∈ (processNodes trace_id fs).1, ∃ m, e = Effect.visited trace_id m)
    ∧ ((processNodes trace_id fs).2 = none
        ∨ (processNodes trace_id fs).2 = some PyExc.AttributeError) := by
  induction fs using processNodes.induct trace_id with
  | case1 => simp [processNodes]
  | case2 f d rest hs => simp [processNodes, hs]
  | case3 f d rest strat hs child hnone ihd ihrest =>
    have hn : (processNodes trace_id d).2 = none := hnone
    constructor
    · intro e he
      simp only [processNodes, hs, hn, List.mem_cons, List.mem_append] at he
      rcases he with (rfl | he) | he
      · exact ⟨_, rfl⟩
      · exact ihd.1 e he
      · exact ihrest.1 e he
    · simp only [processNodes, hs, hn]
      exact ihrest.2
  | case4 f d rest strat hs child hchild hstop ihd =>
    have hc : (processNodes trace_id d).2 = some PyExc.InvalidInputException := hchild
    rcases ihd.2 with h2 | h2 <;> rw [hc] at h2 <;> simp at h2
  | case5 f d rest strat hs child hchild hstop ihd ihrest =>
    have hc : (processNodes trace_id d).2 = some PyExc.InvalidInputException := hchild
    rcases ihd.2 with h2 | h2 <;> rw [hc] at h2 <;> simp at h2
  | case6 f d rest strat hs child e hne hchild ihd =>
    have hc : (processNodes trace_id d).2 = some e := hchild
    have he : e = PyExc.AttributeError := by
      rcases ihd.2 with h2 | h2 <;> rw [hc] at h2
      · simp at h2
      · simpa using h2
    subst he
    constructor
    · intro x hx
      simp only [processNodes, hs, hc, List.mem_cons] at hx
      rcases hx with rfl | hx
      · exact ⟨_, rfl⟩
      · exact ihd.1 x hx
    · simp [processNodes, hs, hc]
  | case7 f v rest hnd ihrest =>
    have heq : processNodes trace_id ((f, v) :: rest) = processNodes trace_id rest := by
      cases v with
      | dict d => exact (hnd d rfl).elim
      | str s => simp [processNodes]
      | num n => simp [processNodes]
      | bool b => simp [processNodes]
      | null => simp [processNodes]
      | arr a => simp [processNodes]
    rw [heq]; exact ihrest


/-- Coverage lemma: if the loop returns without an escaping exception, it
has visited every layer of every subtree below it before returning. -/
theorem processNodes_covers (trace_id : Nat) (fs : List (String × Value)) :
    (processNodes trace_id fs).2 = none →
    ∀ m ∈ nodeList fs, Effect.visited trace_id m ∈ (processNodes trace_id fs).1 := by
  induction fs using processNodes.induct trace_id with
  | case1 => simp [nodeList]
  | case2 f d rest hs => simp [processNodes, hs]
  | case3 f d rest strat hs child hnone ihd ihrest =>
    have hn : (processNodes trace_id d).2 = none := hnone
    intro h m hm
    have hr : (processNodes trace_id rest).2 = none := by
      simp only [processNodes, hs, hn] at h
      exact h
    simp only [nodeList, List.mem_cons, List.mem_append] at hm
    simp only [processNodes, hs, hn, List.mem_cons, List.mem_append]
    rcases hm with rfl | hm | hm
    · left; left; rfl
    · left; right; exact ihd hn m hm
    · right; exact ihrest hr m hm
  | case4 f d rest strat hs child hchild hstop ihd =>
    have hc : (processNodes trace_id d).2 = some PyExc.InvalidInputException := hchild
    rcases (processNodes_only_visits trace_id d).2 with h2 | h2 <;>
      rw [hc] at h2 <;> simp at h2
  | case5 f d rest strat hs child hchild hstop ihd ihrest =>
    have hc : (processNodes trace_id d).2 = some PyExc.InvalidInputException := hchild
    rcases (processNodes_only_visits trace_id d).2 with h2 | h2 <;>
      rw [hc] at h2 <;> simp at h2
  | case6 f d rest strat hs child e hne hchild ihd =>
    have hc : (processNodes trace_id d).2 = some e := hchild
    intro h
    simp [processNodes, hs, hc] at h
  | case7 f v rest hnd ihrest =>
    have heq : processNodes trace_id ((f, v) :: rest) = processNodes trace_id rest := by
      cases v with
      | dict d => exact (hnd d rfl).elim
      | str s => simp [processNodes]
      | num n => simp [processNodes]
      | bool b => simp [processNodes]
      | null => simp [processNodes]
      | arr a => simp [processNodes]
    have hnq : nodeList ((f, v) :: rest) = nodeList rest := by
      cases v with
      | dict d => exact (hnd d rfl).elim
      | str s => simp [nodeList]
      | num n => simp [nodeList]
      | bool b => simp [nodeList]
      | null => simp [nodeList]
      | arr a => simp [nodeList]
    rw [heq, hnq]
    exact ihrest


/-! ## Claims -/

/-- C4 counterexample: the claim says every layer shape resolves to a
defined Strategy; but `StrategyResolver.get_strategy` returns `None` for
the field name `transaction` (and any name other than `address`). -/
theorem c4_counterexample :
    StrategyResolver.get_strategy "transaction" [("amount", Value.num (-1))] = none := by
  decide

/-- C4 (amended): classification is total with a catch-all default in the
configuration-based design (unmatched field names map to
`ReflectiveTransformer`/`NullNotifier`/`StoreToFile`), but in the
one-strategy-per-layer-type design `StrategyResolver.get_strategy` is
defined only for field name `address` and returns nothing for every other
field name. -/
theorem c4_classification_totality (fn : String) (d : List (String × Value)) :
    ((StrategyResolver.get_strategy fn d).isSome ↔ fn = "address")
    ∧ (fn ≠ "address" → fn ≠ "transaction" → fn ≠ "location" →
        TransformerFactory.get_transformer ⟨fn, d⟩ = .ReflectiveTransformer
        ∧ NotifierFactory.get_notifier ⟨fn, d⟩ = .NullNotifier
        ∧ StorageFactory.get_storage ⟨fn, d⟩ = .StoreToFile) := by
  constructor
  · by_cases h : fn = "address"
    · subst h
      simp only [StrategyResolver.get_strategy, beq_self_eq_true, if_true]
      split
      · simp
      · split <;> simp
    · simp [StrategyResolver.get_strategy, h]
  · intro h1 h2 h3
    refine ⟨?_, ?_, ?_⟩ <;>
      simp [TransformerFactory.get_transformer, NotifierFactory.get_notifier,
        StorageFactory.get_storage, h1, h2, h3]

theorem c4_witness :
    ¬("zzz" = "address") ∧ ¬("zzz" = "transaction") ∧ ¬("zzz" = "location")
    ∧ ((StrategyResolver.get_strategy "zzz" []).isSome ↔ "zzz" = "address")
    ∧ TransformerFactory.get_transformer ⟨"zzz", []⟩ = .ReflectiveTransformer
    ∧ NotifierFactory.get_notifier ⟨"zzz", []⟩ = .NullNotifier
    ∧ StorageFactory.get_storage ⟨"zzz", []⟩ = .StoreToFile := by
  have h := c4_classification_totality "zzz" []
  have h2 := h.2 (by decide) (by decide) (by decide)
  exact ⟨by decide, by decide, by decide, h.1, h2.1, h2.2.1, h2.2.2⟩

/-- C5: for a layer named `address`, classification refines by the layer's
own children: a `street` field selects the street strategy; otherwise an
`avenue` field selects the avenue strategy; otherwise the default address
strategy is selected. -/
theorem c5_address_refinement (d : List (String × Value)) :
    (hasKey d "street" = true →
      StrategyResolver.get_strategy "address" d = some .StreetAddressStrategy)
    ∧ (hasKey d "street" = false → hasKey d "avenue" = true →
      StrategyResolver.get_strategy "address" d = some .AvenueAddressStrategy)
    ∧ (hasKey d "street" = false → hasKey d "avenue" = false →
      StrategyResolver.get_strategy "address" d = some .DefaultAddressStrategy) := by
  refine ⟨fun h1 => ?_, fun h1 h2 => ?_, fun h1 h2 => ?_⟩
  · simp [StrategyResolver.get_strategy, h1]
  · simp [StrategyResolver.get_strategy, h1, h2]
  · simp [StrategyResolver.get_strategy, h1, h2]

theorem c5_witness :
    (hasKey [("street", Value.str "Main")] "street" = true
      ∧ StrategyResolver.get_strategy "address" [("street", Value.str "Main")]
          = some .StreetAddressStrategy)
    ∧ (hasKey [("avenue", Value.str "A")] "street" = false
      ∧ hasKey [("avenue", Value.str "A")] "avenue" = true
      ∧ StrategyResolver.get_strategy "address" [("avenue", Value.str "A")]
          = some .AvenueAddressStrategy)
    ∧ (hasKey [("zip", Value.str "1")] "street" = false
      ∧ hasKey [("zip", Value.str "1")] "avenue" = false
      ∧ StrategyResolver.get_strategy "address" [("zip", Value.str "1")]
          = some .DefaultAddressStrategy) :=
  ⟨⟨by decide, (c5_address_refinement [("street", Value.str "Main")]).1 (by decide)⟩,
   ⟨by decide, by decide,
    (c5_address_refinement [("avenue", Value.str "A")]).2.1 (by decide) (by decide)⟩,
   ⟨by decide, by decide,
    (c5_address_refinement [("zip", Value.str "1")]).2.2 (by decide) (by decide)⟩⟩

/-- C9: `AbstractProcessor` declares `_undo_process` abstract and
`ConcreteProcessor` (both designs) leaves it unimplemented, so under
Python's ABC semantics `ConcreteProcessor` can never be instantiated and
every `Driver.main` call fails with `TypeError` at the root processor's
construction, before any layer is processed. -/
theorem c9_concrete_processor_uninstantiable :
    ConcreteProcessor.unimplemented = ["_undo_process"]
    ∧ ConcreteProcessor.instantiate = .error PyExc.TypeError
    ∧ ∀ (u : Nat) (l : LayerData), Driver.main u l = .error PyExc.TypeError := by
  exact ⟨rfl, rfl, fun u l => rfl⟩


/-- A layer whose only field holds a sequence containing a nested layer:
`{"items": [{"x": 1}]}`. -/
def layerC6 : LayerData :=
  ⟨"root", [("items", Value.arr [Value.dict [("x", Value.num 1)]])]⟩

/-- Modelled from the claim's words (C6): the children it says the
recursion visits — every direct field whose value is a Layer, plus every
Layer contained in a direct field whose value is an ordered sequence. -/
def claimedChildren (l : LayerData) : List LayerData :=
  l.data.foldr
    (fun fv acc =>
      match fv.2 with
      | Value.dict d => ⟨fv.1, d⟩ :: acc
      | Value.arr items =>
        (items.filterMap fun v =>
          match v with
          | Value.dict d => some (⟨fv.1, d⟩ : LayerData)
          | _ => none) ++ acc
      | _ => acc)
    []

/-- C6 counterexample: the engine collects no child at all from a
sequence-valued field, while the claim demands the layer inside the
sequence be visited; the run on `layerC6` visits only the root. -/
theorem c6_counterexample :
    childLayers layerC6.data = []
    ∧ (⟨"items", [("x", Value.num 1)]⟩ : LayerData) ∈ claimedChildren layerC6
    ∧ claimedChildren layerC6 ≠ childLayers layerC6.data
    ∧ (process_data 0 layerC6).1 = [Effect.visited 0 layerC6] := by
  refine ⟨by decide, by decide, by decide, ?_⟩
  simp [process_data, processNodes, layerC6]

/-- C6 (amended): the children enumerated by the recursion are exactly the
direct dict-valued fields — a layer is a child iff it appears as a
dict-valued entry; layers inside sequence-valued fields are not visited. -/
theorem c6_children_characterization (l : LayerData) (c : LayerData) :
    c ∈ childLayers l.data ↔ (c.field_name, Value.dict c.data) ∈ l.data := by
  simp only [childLayers, List.mem_filterMap]
  constructor
  · rintro ⟨⟨f, v⟩, hmem, hv⟩
    cases v with
    | dict d =>
      simp only [Option.some.injEq] at hv
      subst hv
      exact hmem
    | str s => simp at hv
    | num n => simp at hv
    | bool b => simp at hv
    | null => simp at hv
    | arr a => simp at hv
  · intro h
    exact ⟨(c.field_name, Value.dict c.data), h, rfl⟩

/-- C7: classification and resolution are deterministic and depend only on
the observable shape the source inspects — the field name and the
presence of the `street`/`avenue` keys; in particular re-resolving the
same layer yields the same strategy class and the same full
`ConcreteStrategy` bundle (transformer, notifier, storage, flags). -/
theorem c7_resolution_deterministic (fn1 fn2 : String)
    (d1 d2 : List (String × Value)) (hf : fn1 = fn2)
    (hs : hasKey d1 "street" = hasKey d2 "street")
    (ha : hasKey d1 "avenue" = hasKey d2 "avenue") :
    StrategyResolver.get_strategy fn1 d1 = StrategyResolver.get_strategy fn2 d2
    ∧ ConcreteStrategy.init ⟨fn1, d1⟩ = ConcreteStrategy.init ⟨fn2, d2⟩ := by
  subst hf
  constructor
  · simp only [StrategyResolver.get_strategy, hs, ha]
  · rfl

theorem c7_witness :
    ("address" : String) = "address"
    ∧ hasKey [("street", Value.str "Main")] "street"
        = hasKey [("street", Value.str "M"), ("zip", Value.str "1")] "street"
    ∧ hasKey [("street", Value.str "Main")] "avenue"
        = hasKey [("street", Value.str "M"), ("zip", Value.str "1")] "avenue"
    ∧ StrategyResolver.get_strategy "address" [("street", Value.str "Main")]
        = StrategyResolver.get_strategy "address"
            [("street", Value.str "M"), ("zip", Value.str "1")]
    ∧ ConcreteStrategy.init ⟨"address", [("street", Value.str "Main")]⟩
        = ConcreteStrategy.init
            ⟨"address", [("street", Value.str "M"), ("zip", Value.str "1")]⟩ := by
  have h := c7_resolution_deterministic "address" "address"
    [("street", Value.str "Main")] [("street", Value.str "M"), ("zip", Value.str "1")]
    rfl (by decide) (by decide)
  exact ⟨rfl, by decide, by decide, h.1, h.2⟩

/-- C10: the recursive engine performs no validation, transformation,
storage or notification on any layer — a run emits only `visited` effects
— and since every `validate` body is a no-op, `InvalidInputException` is
never raised and the `stop_on_failure`/`exit` handler is unreachable
(`exitCalled` never appears, and the escaping exception is never
`InvalidInputException`). -/
theorem c10_engine_no_operations (trace_id : Nat) (l : LayerData) :
    (∀ e ∈ (process_data trace_id l).1, ∃ m, e = Effect.visited trace_id m)
    ∧ (process_data trace_id l).2 ≠ some PyExc.InvalidInputException
    ∧ (∀ c : Int, Effect.exitCalled c ∉ (process_data trace_id l).1)
    ∧ (∀ s : AddressStrategyClass, s.validate = .ok ())
    ∧ (∀ t : TransformerClass, t.validate = .ok ()) := by
  have h := processNodes_only_visits trace_id l.data
  refine ⟨?_, ?_, ?_, fun s => by cases s <;> rfl, fun t => by cases t <;> rfl⟩
  · intro e he
    simp only [process_data, List.mem_cons] at he
    rcases he with rfl | he
    · exact ⟨_, rfl⟩
    · exact h.1 e he
  · simp only [process_data]
    rcases h.2 with h2 | h2 <;> simp [h2]
  · intro c hc
    simp only [process_data, List.mem_cons] at hc
    rcases hc with hc | hc
    · exact absurd hc (by simp)
    · obtain ⟨m, hm⟩ := h.1 _ hc
      simp at hm

theorem c10_witness :
    (∃ m, Effect.visited 3 (⟨"root", []⟩ : LayerData) = Effect.visited 3 m)
    ∧ (process_data 3 (⟨"root", []⟩ : LayerData)).2 ≠ some PyExc.InvalidInputException :=
  ⟨(c10_engine_no_operations 3 ⟨"root", []⟩).1 _ (by simp [process_data]),
   (c10_engine_no_operations 3 ⟨"root", []⟩).2.1⟩

/-- C8: every layer visit performed by a `process_data` run carries the
identical trace identifier the run was entered with — the one generated
once by `uuid4()` at the driver's root — unchanged through the whole
recursion. -/
theorem c8_trace_id_constant (trace_id : Nat) (l : LayerData)
    (t : Nat) (m : LayerData)
    (h : Effect.visited t m ∈ (process_data trace_id l).1) : t = trace_id := by
  simp only [process_data, List.mem_cons] at h
  rcases h with h | h
  · simp only [Effect.visited.injEq] at h
    exact h.1
  · obtain ⟨m', hm⟩ := (processNodes_only_visits trace_id l.data).1 _ h
    simp only [Effect.visited.injEq] at hm
    exact hm.1

theorem c8_witness : (5 : Nat) = 5 :=
  c8_trace_id_constant 5 ⟨"root", []⟩ 5 ⟨"root", []⟩ (by simp [process_data])


/-- The spec's failing scenario `{"transaction": {"amount": -1}}`, decoded
at the driver's root. -/
def transactionDoc : LayerData :=
  ⟨"root", [("transaction", Value.dict [("amount", Value.num (-1))])]⟩

/-- C2 (code evaluation at the claim's scenario): validation of the
transaction layer cannot fail — the transformer the configuration design
resolves for it validates to `ok` — and the actual run of the engine on
the scenario document produces no `Failed` outcome, no storage and no
notification effects: it visits the root and then escapes with
`AttributeError` (the one-strategy resolver returns nothing for
`transaction`), never consulting the failure handler. -/
theorem c2_transaction_scenario_eval :
    TransformerClass.validate
        (TransformerFactory.get_transformer
          ⟨"transaction", [("amount", Value.num (-1))]⟩) = .ok ()
    ∧ process_data 0 transactionDoc
        = ([Effect.visited 0 transactionDoc], some PyExc.AttributeError) := by
  refine ⟨rfl, ?_⟩
  simp [process_data, processNodes, StrategyResolver.get_strategy, hasKey,
    transactionDoc]

/-- Document with two resolving address children: a street address
(whose strategy has `stop_on_failure = False`) and an avenue sibling. -/
def docC3 : LayerData :=
  ⟨"root", [("address", Value.dict [("street", Value.str "Main")]),
            ("address", Value.dict [("avenue", Value.str "A")])]⟩

/-- C3 (code evaluation): the street strategy — the one with
`stop_on_failure = False` — validates to `ok` like every other, so no
child ever fails; the run on a document with a street-address child and a
later sibling visits the root and both children, ends without exception,
and records nothing besides the visits: there is no aggregated result in
which a failure could be recorded. -/
theorem c3_sibling_continuation_eval :
    AddressStrategyClass.validate .StreetAddressStrategy = .ok ()
    ∧ AddressStrategyClass.stop_on_failure .StreetAddressStrategy = false
    ∧ process_data 0 docC3
        = ([Effect.visited 0 docC3,
            Effect.visited 0 ⟨"address", [("street", Value.str "Main")]⟩,
            Effect.visited 0 ⟨"address", [("avenue", Value.str "A")]⟩], none) := by
  refine ⟨rfl, rfl, ?_⟩
  simp [process_data, processNodes, StrategyResolver.get_strategy, hasKey, docC3]

/-- A realizable document (unique field names, as `json.loads` yields)
whose single child resolves to `StreetAddressStrategy` — the one strategy
class whose instances carry `is_independent_of_children = True`. -/
def addressStreetDoc : LayerData :=
  ⟨"root", [("address", Value.dict [("street", Value.str "Main")])]⟩

/-- C1 (code evaluation at a realizable input): the spec requires the
subtree of an independent-flagged child to be dispatched as a concurrent
unit and joined before the parent reports completion.  The engine has no
such machinery: the `is_independent_of_children` branch in `_process` is
a bare `pass` (its own comment promises an async call whose callback
ensures completion), no outcome is ever reported, and — under real
attribute semantics — the flag read itself is a class-attribute access of
an instance-only attribute.  Evaluated on `addressStreetDoc`, whose only
child's strategy is independent-flagged, the run is the plain synchronous
walk: only `visited` effects, in document order, with no dispatch, join
or completion report of any kind. -/
theorem c1_no_dispatch_eval :
    ((StrategyResolver.get_strategy "address" [("street", Value.str "Main")]).map
        AddressStrategyClass.is_independent_of_children = some true)
    ∧ process_data 0 addressStreetDoc
        = ([Effect.visited 0 addressStreetDoc,
            Effect.visited 0 ⟨"address", [("street", Value.str "Main")]⟩], none) := by
  refine ⟨by decide, ?_⟩
  simp [process_data, processNodes, StrategyResolver.get_strategy, hasKey,
    addressStreetDoc]

end MDP
